import Mathlib

/-!
# Verification of the CNM responder (src/cnm_responder.py)

Shallow embedding of the single-module AWS Lambda handler that confirms
ingestion of an L2P granule against the CMR catalog and, on confirmation,
deletes the staged copies from the S3 staging bucket and the EFS output
directories.

Modelling conventions:

* Python strings are Lean `String`s; the Python primitives used by the code
  (`split`, `in`, `replace`, `endswith`, `str(...)` on ints) are re-implemented
  structurally over `String.data` so that all definitions evaluate inside the
  kernel.
* External effects (CMR HTTP query result, S3 delete failures, the EFS file
  tree, the SNS topic list) are supplied by a `World` value; the handler is a
  pure function from the parsed event and the world to the list of performed
  actions plus a control outcome (`Ctl`): normal return, `sys.exit(code)`, or
  an uncaught Python exception.
* Log calls are recorded as actions; f-string messages are rebuilt with `++`.
* The Python variable named `prefix` is rendered `prefixS` (Lean keyword).
-/

namespace CNM

/-! ## Python string primitives (structural re-implementations) -/

/-- `str.split(c)` on a single-character separator, over char lists:
splits at every occurrence of `c`, keeping empty pieces. -/
def splitOnChar (c : Char) : List Char → List (List Char)
  | [] => [[]]
  | x :: xs =>
    match splitOnChar c xs with
    | [] => [[]]
    | h :: t => if x == c then [] :: h :: t else (x :: h) :: t

/-- Python `s.split(c)` for a one-character separator. -/
def pySplit (s : String) (c : Char) : List String :=
  (splitOnChar c s.data).map String.mk

/-- Occurrence test for a pattern inside a char list. -/
def containsSub (pat : List Char) : List Char → Bool
  | [] => pat.isEmpty
  | x :: xs => pat.isPrefixOf (x :: xs) || containsSub pat xs

/-- Python `pat in s` (substring containment; the code only uses non-empty
patterns, for which this agrees with Python). -/
def pyContains (s pat : String) : Bool := containsSub pat.data s.data

/-- Strip `p` from the front of a list, if it is a prefix. -/
def subPre : List Char → List Char → Option (List Char)
  | [], s => some s
  | _ :: _, [] => none
  | p :: ps, x :: xs => if p == x then subPre ps xs else none

/-- Fuelled worker for `pyReplace`: replaces non-overlapping occurrences left
to right; the caller passes enough fuel (the length of the input). -/
def replaceAux (pat rep : List Char) : Nat → List Char → List Char
  | _, [] => []
  | 0, s => s
  | fuel + 1, x :: xs =>
    if pat.isEmpty then x :: xs
    else
      match subPre pat (x :: xs) with
      | some rest => rep ++ replaceAux pat rep fuel rest
      | none => x :: replaceAux pat rep fuel xs

/-- Python `s.replace(pat, rep)` for non-empty `pat` (the code only replaces
the non-empty pattern "_NPP"). -/
def pyReplace (s pat rep : String) : String :=
  String.mk (replaceAux pat.data rep.data s.data.length s.data)

/-- Python `s.endswith(suffix)`. -/
def pyEndsWith (s suffix : String) : Bool := suffix.data.isSuffixOf s.data

/-- Decimal digit character for `n < 10`. -/
def digitChar10 (n : Nat) : Char :=
  if n = 0 then '0' else if n = 1 then '1' else if n = 2 then '2'
  else if n = 3 then '3' else if n = 4 then '4' else if n = 5 then '5'
  else if n = 6 then '6' else if n = 7 then '7' else if n = 8 then '8' else '9'

/-- Fuelled decimal-digit expansion (most significant first). -/
def natToDigits : Nat → Nat → List Char
  | 0, _ => []
  | fuel + 1, n =>
    if n < 10 then [digitChar10 n]
    else natToDigits fuel (n / 10) ++ [digitChar10 (n % 10)]

/-- Python `str(n)` for a natural number. -/
def natToStr (n : Nat) : String := String.mk (natToDigits (n + 1) n)

/-- ASCII decimal-digit test. -/
def isDigitCh (c : Char) : Bool := 48 ≤ c.toNat && c.toNat ≤ 57

/-- Numeric value of a decimal digit character. -/
def digitVal (c : Char) : Nat := c.toNat - 48

/-- Value of a decimal digit string (most significant first). -/
def digitsToNat (cs : List Char) : Nat :=
  List.foldl (fun a c => 10 * a + digitVal c) 0 cs

/-! ## Calendar (embeds `datetime.strptime` + `timetuple().tm_yday`) -/

/-- Gregorian leap-year rule (as used by Python `datetime`). -/
def isLeapYear (y : Nat) : Bool :=
  y % 4 == 0 && (y % 100 != 0 || y % 400 == 0)

/-- Number of days of month `m` (1-based) of year `y`. -/
def daysInMonth (y m : Nat) : Nat :=
  if m == 2 then (if isLeapYear y then 29 else 28)
  else if m == 4 || m == 6 || m == 9 || m == 11 then 30
  else 31

/-- `datetime.timetuple().tm_yday`: day of year via fixed cumulative-month
offsets plus a leap-day adjustment after February. -/
def tm_yday (y m d : Nat) : Nat :=
  let off : Nat :=
    match m with
    | 1 => 0 | 2 => 31 | 3 => 59 | 4 => 90 | 5 => 120 | 6 => 151
    | 7 => 181 | 8 => 212 | 9 => 243 | 10 => 273 | 11 => 304 | _ => 334
  off + (if 2 < m && isLeapYear y then 1 else 0) + d

/-- Reference calendar computation of the day of year: the day of month plus
the lengths of all preceding months of that year. -/
def refDayOfYear (y m d : Nat) : Nat :=
  d + List.foldl (fun acc k => acc + daysInMonth y (k + 1)) 0 (List.range (m - 1))

/-- Result of `datetime.strptime(s, "%Y%m%d%H%M%S")`. -/
structure PyDateTime where
  year : Nat
  month : Nat
  day : Nat
  hour : Nat
  minute : Nat
  second : Nat
deriving DecidableEq

/-- `datetime.strptime(s, "%Y%m%d%H%M%S")` on 14-digit timestamps: positional
digit extraction plus `datetime` range validation; `none` models the
`ValueError` raised on any malformed or out-of-range input. -/
def strptime14 (s : String) : Option PyDateTime :=
  let cs := s.data
  if cs.length = 14 ∧ cs.all isDigitCh = true then
    let y := digitsToNat (cs.take 4)
    let mo := digitsToNat ((cs.drop 4).take 2)
    let d := digitsToNat ((cs.drop 6).take 2)
    let h := digitsToNat ((cs.drop 8).take 2)
    let mi := digitsToNat ((cs.drop 10).take 2)
    let se := digitsToNat ((cs.drop 12).take 2)
    if 1 ≤ y ∧ 1 ≤ mo ∧ mo ≤ 12 ∧ 1 ≤ d ∧ d ≤ daysInMonth y mo ∧
        h ≤ 23 ∧ mi ≤ 59 ∧ se ≤ 59 then
      some ⟨y, mo, d, h, mi, se⟩
    else none
  else none

/-! ## Data model -/

/-- One entry of `product.files` (also reused for the CMR archive file list):
a file name and its checksum value. -/
structure FileEntry where
  name : String
  checksum : String
deriving DecidableEq

/-- The two file kinds the code distinguishes (dict keys "netcdf"/"md5"). -/
inductive FileType
  | netcdf
  | md5
deriving DecidableEq

/-- The `checksum_dict` built by `run_query`: at most one checksum per kind.
An absent kind models a missing dict key. -/
structure ChecksumDict where
  netcdf : Option String
  md5 : Option String
deriving DecidableEq

/-- Dict lookup `checksum_dict[file_type]`; `none` models a `KeyError`. -/
def ChecksumDict.get (cd : ChecksumDict) : FileType → Option String
  | FileType.netcdf => cd.netcdf
  | FileType.md5 => cd.md5

/-- Python truthiness of the dict (`if checksum_dict:`). -/
def ChecksumDict.nonempty (cd : ChecksumDict) : Bool :=
  cd.netcdf.isSome || cd.md5.isSome

/-- Suffix classification performed by the loop of `remove_staged_file`
(lines 204-209): `.nc` files are "netcdf", `.md5` files are "md5", and any
other name hits the `continue` branch, modelled as `none`. -/
def classify (name : String) : Option FileType :=
  if pyEndsWith name ".nc" then some FileType.netcdf
  else if pyEndsWith name ".md5" then some FileType.md5
  else none

/-- A produced file whose kind is classified and whose checksum equals the
catalog's recorded checksum for that kind. -/
def matchesDict (cd : ChecksumDict) (f : FileEntry) : Bool :=
  match classify f.name with
  | some t => cd.get t == some f.checksum
  | none => false

/-- A produced file whose kind is classified but whose checksum differs from
the catalog's recorded checksum for that kind. -/
def mismatchesDict (cd : ChecksumDict) (f : FileEntry) : Bool :=
  match classify f.name with
  | some t => !(cd.get t == some f.checksum)
  | none => false

/-- The unguarded lookup `checksum_dict[file_type]` succeeds for this file
(vacuously true for unclassified files, which are skipped before lookup). -/
def kindKeyPresent (cd : ChecksumDict) (f : FileEntry) : Bool :=
  match classify f.name with
  | some t => (cd.get t).isSome
  | none => true

/-! ## Effects and outcomes -/

/-- Python exceptions relevant to the embedded code paths. -/
inductive PyExn
  | clientError
  | keyError
  | indexError
  | valueError
  | nameError
  | typeError
  | osError
deriving DecidableEq

/-- Observable side effects of one invocation, in program order. -/
inductive Action
  | logInfo (msg : String)
  | logError (msg : String)
  | s3Delete (bucket key : String)
  | fsUnlink (path : String)
  | fsMissing (path : String)
  | snsPublish (arn subject msg : String)
deriving DecidableEq

/-- Storage mutation or attempted mutation: an S3 delete or an EFS unlink
attempt (successful or on an absent path). -/
def Action.isStorage : Action → Bool
  | Action.s3Delete _ _ => true
  | Action.fsUnlink _ => true
  | Action.fsMissing _ => true
  | _ => false

/-- Filesystem-cleanup step marker: any EFS unlink attempt. -/
def Action.isFs : Action → Bool
  | Action.fsUnlink _ => true
  | Action.fsMissing _ => true
  | _ => false

/-- The storage actions of a trace. -/
def storageActions (l : List Action) : List Action := l.filter Action.isStorage

/-- The filesystem actions of a trace. -/
def fsActions (l : List Action) : List Action := l.filter Action.isFs

/-- The SNS publications of a trace. -/
def publishActions (l : List Action) : List Action :=
  l.filter fun a =>
    match a with
    | Action.snsPublish _ _ _ => true
    | _ => false

/-- Control outcome of a code fragment: fell through normally, called
`sys.exit(code)`, or let a Python exception escape. -/
inductive Ctl
  | ok
  | exited (code : Nat)
  | raised (e : PyExn)
deriving DecidableEq

/-! ## External world -/

/-- The JSON body of the CMR search response, abstracted to the fields the
code reads: an "errors" key, or a "hits" count with the first item's
`ArchiveAndDistributionInformation` entries (name and checksum value);
`malformed` covers a body with neither key. -/
inductive CmrResponse
  | errors (msg : String)
  | body (hits : Nat) (files : List FileEntry)
  | malformed

/-- EFS state: the existing file paths, plus the paths whose `unlink` raises
an error other than `FileNotFoundError` (e.g. a permission error). -/
structure Efs where
  files : List String
  failing : List String
deriving DecidableEq

/-- SNS state: the existing topic ARNs and whether the `list_topics` /
`publish` calls succeed (a `false` models a `botocore` `ClientError`). -/
structure SnsWorld where
  topics : List String
  listOk : Bool
  publishOk : Bool

/-- The parsed SNS message (the JSON fields of the CNM response the handler
reads). -/
structure Event where
  identifier : String
  collection : String
  trace : String
  status : String
  errorCode : String
  errorMessage : String
  files : List FileEntry

/-- External environment of one invocation. `edlToken` is the SSM lookup
result of `get_edl_token` (`none` models its `ClientError`); `s3Fail key`
states whether `s3.delete_object` on that key raises a `ClientError`. -/
structure World where
  cmr : CmrResponse
  edlToken : Option String
  s3Fail : String → Bool
  efs : Efs
  sns : SnsWorld

/-! ## Constants (lines 20-36) -/

/-- The `EFS` constant: dataset code to EFS directory name. -/
def EFS_dict (d : String) : Option String :=
  if d = "MODIS_A" then some "MODIS_L2P_CORE_NETCDF"
  else if d = "MODIS_T" then some "MODIS_L2P_CORE_NETCDF"
  else if d = "VIIRS" then some "VIIRS_L2P_CORE_NETCDF"
  else none

/-- The `S3` constant: dataset code to S3 key subdirectory. -/
def S3_dict (d : String) : Option String :=
  if d = "MODIS_A" then some "aqua"
  else if d = "MODIS_T" then some "terra"
  else if d = "VIIRS" then some "viirs"
  else none

/-- The `TOPIC_STRING` constant. -/
def TOPIC_STRING : String := "batch-job-failure"

/-! ## The embedded functions -/

/-- Dataset-code normalization, lines 72-73 of `cnm_handler` and lines
238-239 of `remove_from_efs` (the two occurrences are textually identical):
only when the code contains "VIIRS" are the "_NPP" occurrences removed. -/
def normalize_dataset (d : String) : String :=
  if pyContains d "VIIRS" then pyReplace d "_NPP" "" else d

/-- The dict-building loop of `run_query` (lines 188-193): two independent
suffix tests per CMR file entry, later entries overwriting earlier ones. -/
def buildChecksumDict : List FileEntry → ChecksumDict → ChecksumDict
  | [], cd => cd
  | f :: fs, cd =>
    let cd1 := if pyEndsWith f.name ".nc" then ChecksumDict.mk (some f.checksum) cd.md5 else cd
    let cd2 := if pyEndsWith f.name ".md5" then ChecksumDict.mk cd1.netcdf (some f.checksum) else cd1
    buildChecksumDict fs cd2

/-- `run_query` (lines 167-197). The HTTP request (url, short name, readable
granule name, bearer token) is abstracted into the `CmrResponse` the server
returns; the function keeps only the response parsing: an error body or a
zero-hit body yields the empty dict plus an error log. -/
def run_query (granule_name : String) (resp : CmrResponse) :
    ChecksumDict × List Action :=
  match resp with
  | CmrResponse.errors m =>
      (ChecksumDict.mk none none, [Action.logError ("Error response - " ++ m)])
  | CmrResponse.body hits files =>
      if hits > 0 then (buildChecksumDict files (ChecksumDict.mk none none), [])
      else (ChecksumDict.mk none none,
        [Action.logError ("Could not locate granule: " ++ granule_name)])
  | CmrResponse.malformed =>
      (ChecksumDict.mk none none,
        [Action.logError ("Could not locate granule: " ++ granule_name)])

/-- `remove_staged_file` (lines 199-225): per produced file, classify by
suffix (skipping other suffixes via `continue`), look the kind up in the
checksum dict (`KeyError` when absent), delete from the staging bucket when
the checksums agree (a `ClientError` is logged and re-raised, modelled by the
error value), otherwise record the file name as a checksum error. -/
def remove_staged_file (cd : ChecksumDict) (prefixS dataset : String)
    (file_list : List FileEntry) (s3f : String → Bool) :
    Except PyExn (List String × List Action) :=
  match file_list with
  | [] => Except.ok ([], [])
  | f :: rest =>
    match classify f.name with
    | none => remove_staged_file cd prefixS dataset rest s3f
    | some t =>
      match cd.get t with
      | none => Except.error PyExn.keyError
      | some expected =>
        if f.checksum = expected then
          if s3f (dataset ++ "/" ++ f.name) then Except.error PyExn.clientError
          else
            match remove_staged_file cd prefixS dataset rest s3f with
            | Except.ok (errs, acts) =>
                Except.ok (errs,
                  Action.s3Delete (prefixS ++ "-l2p-granules") (dataset ++ "/" ++ f.name)
                    :: Action.logInfo (dataset ++ "/" ++ f.name ++
                        " deleted from L2P granules staging bucket.")
                    :: acts)
            | Except.error e => Except.error e
        else
          match remove_staged_file cd prefixS dataset rest s3f with
          | Except.ok (errs, acts) => Except.ok (f.name :: errs, acts)
          | Except.error e => Except.error e

/-- The names `remove_staged_file` accumulates in `checksum_errors`, stated
directly: the classified files whose checksum disagrees with the dict. -/
def mismatchNames (cd : ChecksumDict) : List FileEntry → List String
  | [] => []
  | f :: fs =>
    if mismatchesDict cd f then f.name :: mismatchNames cd fs
    else mismatchNames cd fs

/-- The actions `remove_staged_file` emits, stated directly: a bucket delete
plus a log line for each classified, matching file, in list order. -/
def stagedDeletes (cd : ChecksumDict) (prefixS dataset : String) :
    List FileEntry → List Action
  | [] => []
  | f :: fs =>
    if matchesDict cd f then
      Action.s3Delete (prefixS ++ "-l2p-granules") (dataset ++ "/" ++ f.name)
        :: Action.logInfo (dataset ++ "/" ++ f.name ++
            " deleted from L2P granules staging bucket.")
        :: stagedDeletes cd prefixS dataset fs
    else stagedDeletes cd prefixS dataset fs

/-- `report_checksum_errors` (lines 227-233): log every mismatched name and
call `sys.exit(1)`. -/
def report_checksum_errors (checksum_errors : List String) : List Action × Ctl :=
  (Action.logError ("The following checksums created during Generate processing " ++
      "did not match checksums found in CMR...")
    :: checksum_errors.map Action.logError,
   Ctl.exited 1)

/-- The topic-selection loop of `publish_event` (lines 136-138): the variable
keeps the last ARN containing `TOPIC_STRING`; `none` models the loop binding
nothing (leaving `topic_arn` undefined). -/
def lastTopicMatch : List String → Option String
  | [] => none
  | t :: ts =>
    match lastTopicMatch ts with
    | some r => some r
    | none => if pyContains t TOPIC_STRING then some t else none

/-- `publish_event` (lines 124-153): list the topics (a `ClientError` exits 1),
pick the last matching ARN (an empty match leaves `topic_arn` unbound, so the
publish call raises a `NameError`), then publish (a `ClientError` exits 1). -/
def publish_event (error_msg : String) (sns : SnsWorld) : List Action × Ctl :=
  if sns.listOk = false then
    ([Action.logError "Failed to list SNS Topics.",
      Action.logError "Error - ClientError"], Ctl.exited 1)
  else
    match lastTopicMatch sns.topics with
    | none => ([], Ctl.raised PyExn.nameError)
    | some arn =>
      if sns.publishOk then
        ([Action.snsPublish arn "Generate Failure: CNM Responder" error_msg,
          Action.logInfo ("Message published to SNS Topic: " ++ arn ++ ".")], Ctl.ok)
      else
        ([Action.logError ("Failed to publish to SNS Topic: " ++ arn ++ "."),
          Action.logError "Error - ClientError"], Ctl.exited 1)

/-- `handle_failure` (lines 113-122): two error logs, a notification, one
final log, `sys.exit(1)`; a failure inside `publish_event` takes over. -/
def handle_failure (message granule collection : String) (sns : SnsWorld) :
    List Action × Ctl :=
  let l1 := Action.logError ("Cumulus ingestion failed for " ++ granule ++ " in " ++ collection)
  let l2 := Action.logError message
  let error_message := "Cumulus ingestion failed for " ++ granule ++ " in " ++ collection
      ++ ".\n" ++ message
  match publish_event error_message sns with
  | (pa, Ctl.ok) => ([l1, l2] ++ pa ++ [Action.logError "Exiting program."], Ctl.exited 1)
  | (pa, c) => ([l1, l2] ++ pa, c)

/-- `handle_failure` invoked with a `botocore` `ClientError` exception object
as `message` (the call sites at lines 64 and 79 pass the caught exception,
not a string): the two `logger.error` calls succeed, but building
`error_message` at lines 118-119 concatenates a str with the exception
object, which raises an uncaught `TypeError` before `publish_event` or
`sys.exit` is reached. -/
def handle_failure_exc (granule collection : String) : List Action × Ctl :=
  ([Action.logError ("Cumulus ingestion failed for " ++ granule ++ " in " ++ collection),
    Action.logError "ClientError"], Ctl.raised PyExn.typeError)

/-- `delete_file` (lines 254-264): `unlink` the path; `FileNotFoundError` is
logged as informational and swallowed; any other unlink error (a failing
path) propagates. -/
def delete_file (granule : String) (efs : Efs) : Except PyExn (List Action × Efs) :=
  if efs.failing.contains granule then Except.error PyExn.osError
  else if efs.files.contains granule then
    Except.ok ([Action.fsUnlink granule,
        Action.logInfo ("Removed " ++ granule ++ " from EFS.")],
      Efs.mk (efs.files.erase granule) efs.failing)
  else
    Except.ok ([Action.fsMissing granule,
        Action.logInfo (granule ++ " does not exist on the EFS.")], efs)

/-- The four paths built at lines 242-251: primary file, its `.md5` sidecar,
and both again under the "_REFINED" subdirectory; `y` and `doy` are the
stringified year and day of year. -/
def efs_paths (efsDir dataset y doy granule_name : String) : List String :=
  ["/mnt/data/" ++ efsDir ++ "/" ++ dataset ++ "/" ++ y ++ "/" ++ doy ++ "/" ++ granule_name,
   "/mnt/data/" ++ efsDir ++ "/" ++ dataset ++ "/" ++ y ++ "/" ++ doy ++ "/" ++ granule_name ++ ".md5",
   "/mnt/data/" ++ efsDir ++ "/" ++ dataset ++ "_REFINED" ++ "/" ++ y ++ "/" ++ doy ++ "/" ++ granule_name,
   "/mnt/data/" ++ efsDir ++ "/" ++ dataset ++ "_REFINED" ++ "/" ++ y ++ "/" ++ doy ++ "/" ++ granule_name ++ ".md5"]

/-- Sequence `delete_file` over a path list, threading the EFS state and
propagating the first raised error (the four calls of lines 243-252). -/
def efsDeleteRun : List String → Efs → Except PyExn (List Action × Efs)
  | [], efs => Except.ok ([], efs)
  | p :: ps, efs =>
    match delete_file p efs with
    | Except.error e => Except.error e
    | Except.ok (a, efs2) =>
      match efsDeleteRun ps efs2 with
      | Except.error e => Except.error e
      | Except.ok (as2, efs3) => Except.ok (a ++ as2, efs3)

/-- `remove_from_efs` (lines 235-252): dataset code from field 4 of the name
(`IndexError` when missing), "VIIRS"-guarded "_NPP" removal, timestamp from
field 0 (`ValueError` on a malformed timestamp), EFS directory lookup
(`KeyError` for an unknown dataset), then the four `delete_file` calls. -/
def remove_from_efs (granule_name : String) (efs : Efs) :
    Except PyExn (List Action × Efs) :=
  match (pySplit granule_name '-')[4]? with
  | none => Except.error PyExn.indexError
  | some d0 =>
    let dataset := normalize_dataset d0
    match strptime14 ((pySplit granule_name '-').headD "") with
    | none => Except.error PyExn.valueError
    | some ts =>
      match EFS_dict dataset with
      | none => Except.error PyExn.keyError
      | some efsDir =>
        efsDeleteRun
          (efs_paths efsDir dataset (natToStr ts.year)
            (natToStr (tm_yday ts.year ts.month ts.day)) granule_name) efs

/-- `cnm_handler` (lines 38-86). The failure branch formats and reports the
upstream error; the success branch queries CMR, and on a non-empty checksum
dict runs the staged-copy removal inside a `try` that catches only
`botocore.exceptions.ClientError`, reports any checksum mismatches (which
exits), and finally removes the granule from the EFS output directories. -/
def cnm_handler (ev : Event) (w : World) : List Action × Ctl :=
  let a0 : List Action := [Action.logInfo "EVENT"]
  if ev.status = "FAILURE" then
    let message := ev.errorCode ++ ": " ++ ev.errorMessage
    let r := handle_failure message ev.identifier ev.collection w.sns
    (a0 ++ r.1, r.2)
  else
    let a1 := a0 ++ [Action.logInfo ("Granule possibly ingested for: " ++ ev.collection
        ++ ". Confirming now.")]
    let granule_name := ev.identifier
    match w.edlToken with
    | none =>
      let r := handle_failure_exc granule_name ev.collection
      (a1 ++ r.1, r.2)
    | some _ =>
      let a2 := a1 ++ [Action.logInfo ("Searching for " ++ granule_name ++ " from "
          ++ ev.collection ++ ".")]
      let q := run_query granule_name w.cmr
      let checksum_dict := q.1
      let a3 := a2 ++ q.2
      if checksum_dict.nonempty then
        let a4 := a3 ++ [Action.logInfo ("Found " ++ granule_name ++ " from "
            ++ ev.collection ++ ".")]
        match (pySplit granule_name '-')[4]? with
        | none => (a4, Ctl.raised PyExn.indexError)
        | some d0 =>
          match S3_dict (normalize_dataset d0) with
          | none => (a4, Ctl.raised PyExn.keyError)
          | some dataset =>
            match remove_staged_file checksum_dict ev.trace dataset ev.files w.s3Fail with
            | Except.error PyExn.clientError =>
              let r := handle_failure_exc granule_name ev.collection
              (a4 ++ r.1, r.2)
            | Except.error e => (a4, Ctl.raised e)
            | Except.ok (checksum_errors, ra) =>
              let a5 := a4 ++ ra
              if checksum_errors.length > 0 then
                let r := report_checksum_errors checksum_errors
                (a5 ++ r.1, r.2)
              else
                let a6 := a5 ++ [Action.logInfo ("Removing " ++ granule_name
                    ++ " from processor L2P output.")]
                match remove_from_efs (granule_name ++ ".nc") w.efs with
                | Except.error e => (a6, Ctl.raised e)
                | Except.ok (ea, _) => (a6 ++ ea, Ctl.ok)
      else
        let message := "Searched failed for " ++ granule_name ++ " from "
            ++ ev.collection ++ "."
        let r := handle_failure message granule_name ev.collection w.sns
        (a3 ++ r.1, r.2)

/-- A benign SNS environment: either listing the topics fails (which exits),
or some topic matches `TOPIC_STRING` (so `topic_arn` gets bound and the
`NameError` path is unreachable). -/
def SnsBenign (sns : SnsWorld) : Prop :=
  sns.listOk = false ∨ (lastTopicMatch sns.topics).isSome = true

/-- An S3 world in which no delete call fails (used by concrete runs). -/
def noS3Fail : String → Bool := fun _ => false

end CNM

namespace CNM

/-! ## Helper lemmas -/

theorem isFs_imp_isStorage (a : Action) (h : Action.isFs a = true) :
    Action.isStorage a = true := by
  cases a <;> simp [Action.isFs, Action.isStorage] at h ⊢

theorem storageActions_append (l1 l2 : List Action) :
    storageActions (l1 ++ l2) = storageActions l1 ++ storageActions l2 :=
  List.filter_append l1 l2

theorem fsActions_append (l1 l2 : List Action) :
    fsActions (l1 ++ l2) = fsActions l1 ++ fsActions l2 :=
  List.filter_append l1 l2

theorem fsActions_nil_of_storage (l : List Action)
    (h : storageActions l = []) : fsActions l = [] := by
  unfold storageActions at h
  unfold fsActions
  rw [List.filter_eq_nil_iff] at h ⊢
  exact fun a ha hf => h a ha (isFs_imp_isStorage a hf)

theorem run_query_storage (g : String) (r : CmrResponse) :
    storageActions (run_query g r).2 = [] := by
  cases r with
  | errors m => simp [run_query, storageActions, Action.isStorage]
  | body hits files =>
    by_cases h : hits > 0 <;>
      simp [run_query, h, storageActions, Action.isStorage]
  | malformed => simp [run_query, storageActions, Action.isStorage]

theorem publish_event_storage (m : String) (sns : SnsWorld) :
    storageActions (publish_event m sns).1 = [] := by
  by_cases hl : sns.listOk = false
  · simp [publish_event, hl, storageActions, Action.isStorage]
  · cases ht : lastTopicMatch sns.topics with
    | none => simp [publish_event, hl, ht, storageActions]
    | some arn =>
      by_cases hp : sns.publishOk <;>
        simp [publish_event, hl, ht, hp, storageActions, Action.isStorage]

theorem publish_event_ctl (m : String) (sns : SnsWorld) (hb : SnsBenign sns) :
    (publish_event m sns).2 = Ctl.ok ∨ (publish_event m sns).2 = Ctl.exited 1 := by
  rcases hb with hl | ht
  · simp [publish_event, hl]
  · by_cases hl : sns.listOk = false
    · simp [publish_event, hl]
    · cases hm : lastTopicMatch sns.topics with
      | none => rw [hm] at ht; simp at ht
      | some arn =>
        by_cases hp : sns.publishOk <;> simp [publish_event, hl, hm, hp]

theorem handle_failure_ctl (msg g c : String) (sns : SnsWorld) (hb : SnsBenign sns) :
    (handle_failure msg g c sns).2 = Ctl.exited 1 := by
  unfold handle_failure
  rcases hpe : publish_event ("Cumulus ingestion failed for " ++ g ++ " in " ++ c
      ++ ".\n" ++ msg) sns with ⟨pa, pc⟩
  rcases publish_event_ctl ("Cumulus ingestion failed for " ++ g ++ " in " ++ c
      ++ ".\n" ++ msg) sns hb with h | h <;> rw [hpe] at h <;> simp at h <;>
    subst h <;> simp [hpe]

theorem handle_failure_storage (msg g c : String) (sns : SnsWorld) :
    storageActions (handle_failure msg g c sns).1 = [] := by
  have hps := publish_event_storage ("Cumulus ingestion failed for " ++ g ++ " in " ++ c
      ++ ".\n" ++ msg) sns
  unfold handle_failure
  rcases hpe : publish_event ("Cumulus ingestion failed for " ++ g ++ " in " ++ c
      ++ ".\n" ++ msg) sns with ⟨pa, pc⟩
  rw [hpe] at hps
  cases pc <;>
    simp_all [storageActions_append, storageActions, Action.isStorage]

theorem handle_failure_mem_ctx (msg g c : String) (sns : SnsWorld) :
    Action.logError ("Cumulus ingestion failed for " ++ g ++ " in " ++ c)
      ∈ (handle_failure msg g c sns).1 := by
  simp only [handle_failure]
  rcases hpe : publish_event ("Cumulus ingestion failed for " ++ g ++ " in " ++ c
      ++ ".\n" ++ msg) sns with ⟨pa, pc⟩
  cases pc <;> simp

theorem handle_failure_mem_msg (msg g c : String) (sns : SnsWorld) :
    Action.logError msg ∈ (handle_failure msg g c sns).1 := by
  simp only [handle_failure]
  rcases hpe : publish_event ("Cumulus ingestion failed for " ++ g ++ " in " ++ c
      ++ ".\n" ++ msg) sns with ⟨pa, pc⟩
  cases pc <;> simp

end CNM

namespace CNM

theorem matches_not_mismatches (cd : ChecksumDict) (f : FileEntry)
    (h : matchesDict cd f = true) : mismatchesDict cd f = false := by
  cases hcl : classify f.name with
  | none => simp [mismatchesDict, hcl]
  | some t =>
    simp only [matchesDict, hcl] at h
    simp [mismatchesDict, hcl, h]

theorem matchesDict_key (cd : ChecksumDict) (f : FileEntry)
    (h : matchesDict cd f = true) : kindKeyPresent cd f = true := by
  cases hcl : classify f.name with
  | none => simp [kindKeyPresent, hcl]
  | some t =>
    simp only [matchesDict, hcl, beq_iff_eq] at h
    simp [kindKeyPresent, hcl, h]

theorem rsf_eq (cd : ChecksumDict) (p ds : String) (s3f : String → Bool)
    (hs : ∀ k, s3f k = false) :
    ∀ files : List FileEntry, (∀ f ∈ files, kindKeyPresent cd f = true) →
      remove_staged_file cd p ds files s3f =
        Except.ok (mismatchNames cd files, stagedDeletes cd p ds files) := by
  intro files
  induction files with
  | nil => intro _; rfl
  | cons f fs ih =>
    intro hk
    have hk0 : kindKeyPresent cd f = true := hk f (by simp)
    have ihe := ih (fun g hg => hk g (List.mem_cons_of_mem f hg))
    cases hcl : classify f.name with
    | none =>
      have hm : matchesDict cd f = false := by unfold matchesDict; rw [hcl]
      have hmm : mismatchesDict cd f = false := by unfold mismatchesDict; rw [hcl]
      simp only [remove_staged_file, mismatchNames, stagedDeletes, hcl, hm, hmm,
        Bool.false_eq_true, if_false]
      exact ihe
    | some t =>
      have hsome : (cd.get t).isSome = true := by
        have h := hk0
        simp only [kindKeyPresent, hcl] at h
        exact h
      obtain ⟨expected, hget⟩ := Option.isSome_iff_exists.mp hsome
      by_cases hchk : f.checksum = expected
      · have hm : matchesDict cd f = true := by
          simp [matchesDict, hcl, hget, hchk]
        have hmm : mismatchesDict cd f = false := matches_not_mismatches cd f hm
        simp only [remove_staged_file, mismatchNames, stagedDeletes, hcl, hget,
          if_pos hchk, hs, hm, hmm, Bool.false_eq_true, if_false, if_true, ihe]
      · have hm : matchesDict cd f = false := by
          simp only [matchesDict, hcl, hget]
          simp
          intro h
          exact hchk h.symm
        have hmm : mismatchesDict cd f = true := by
          simp only [mismatchesDict, hcl, hget]
          simp
          intro h
          exact hchk h.symm
        simp only [remove_staged_file, mismatchNames, stagedDeletes, hcl, hget,
          if_neg hchk, hm, hmm, Bool.false_eq_true, if_false, if_true, ihe]

theorem rsf_keyError (cd : ChecksumDict) (p ds : String) (s3f : String → Bool)
    (hs : ∀ k, s3f k = false) :
    ∀ files : List FileEntry, (∃ f ∈ files, kindKeyPresent cd f = false) →
      remove_staged_file cd p ds files s3f = Except.error PyExn.keyError := by
  intro files
  induction files with
  | nil => rintro ⟨f, hf, _⟩; simp at hf
  | cons f fs ih =>
    rintro ⟨g, hg, hgk⟩
    rcases List.mem_cons.mp hg with rfl | hg2
    · cases hcl : classify g.name with
      | none =>
        simp only [kindKeyPresent, hcl] at hgk
        simp at hgk
      | some t =>
        simp only [kindKeyPresent, hcl] at hgk
        have hnone : cd.get t = none := by
          cases hq : cd.get t with
          | none => rfl
          | some v => rw [hq] at hgk; simp at hgk
        simp only [remove_staged_file, hcl, hnone]
    · have ihe := ih ⟨g, hg2, hgk⟩
      cases hcl : classify f.name with
      | none =>
        simp only [remove_staged_file, hcl]
        exact ihe
      | some t =>
        cases hq : cd.get t with
        | none => simp only [remove_staged_file, hcl, hq]
        | some expected =>
          by_cases hchk : f.checksum = expected
          · simp only [remove_staged_file, hcl, hq, if_pos hchk, hs,
              Bool.false_eq_true, if_false, ihe]
          · simp only [remove_staged_file, hcl, hq, if_neg hchk, ihe]

theorem mismatchNames_nil (cd : ChecksumDict) :
    ∀ files : List FileEntry, (∀ f ∈ files, matchesDict cd f = true) →
      mismatchNames cd files = [] := by
  intro files
  induction files with
  | nil => intro _; rfl
  | cons f fs ih =>
    intro h
    have hmm : mismatchesDict cd f = false :=
      matches_not_mismatches cd f (h f (by simp))
    simp only [mismatchNames, hmm, Bool.false_eq_true, if_false]
    exact ih (fun g hg => h g (List.mem_cons_of_mem f hg))

theorem mismatchNames_append (cd : ChecksumDict) (l1 l2 : List FileEntry) :
    mismatchNames cd (l1 ++ l2) = mismatchNames cd l1 ++ mismatchNames cd l2 := by
  induction l1 with
  | nil => rfl
  | cons f fs ih =>
    by_cases h : mismatchesDict cd f = true <;>
      simp [mismatchNames, h, ih]

theorem mismatchNames_sub (cd : ChecksumDict) :
    ∀ files : List FileEntry, ∀ n ∈ mismatchNames cd files,
      ∃ f ∈ files, f.name = n ∧ mismatchesDict cd f = true := by
  intro files
  induction files with
  | nil => intro n hn; simp [mismatchNames] at hn
  | cons f fs ih =>
    intro n hn
    by_cases h : mismatchesDict cd f = true
    · simp only [mismatchNames, h, if_true] at hn
      rcases List.mem_cons.mp hn with rfl | hn2
      · exact ⟨f, by simp, rfl, h⟩
      · obtain ⟨g, hg, hgn, hgm⟩ := ih n hn2
        exact ⟨g, List.mem_cons_of_mem f hg, hgn, hgm⟩
    · simp only [mismatchNames, h, Bool.false_eq_true, if_false] at hn
      obtain ⟨g, hg, hgn, hgm⟩ := ih n hn
      exact ⟨g, List.mem_cons_of_mem f hg, hgn, hgm⟩

theorem mismatchNames_mem (cd : ChecksumDict) :
    ∀ files : List FileEntry, ∀ f ∈ files, mismatchesDict cd f = true →
      f.name ∈ mismatchNames cd files := by
  intro files
  induction files with
  | nil => intro f hf; simp at hf
  | cons g gs ih =>
    intro f hf hfm
    rcases List.mem_cons.mp hf with rfl | hf2
    · simp [mismatchNames, hfm]
    · by_cases h : mismatchesDict cd g = true <;>
        simp [mismatchNames, h, ih f hf2 hfm]

theorem stagedDeletes_mem (cd : ChecksumDict) (p ds : String) :
    ∀ files : List FileEntry, ∀ f ∈ files, matchesDict cd f = true →
      Action.s3Delete (p ++ "-l2p-granules") (ds ++ "/" ++ f.name)
        ∈ stagedDeletes cd p ds files := by
  intro files
  induction files with
  | nil => intro f hf; simp at hf
  | cons g gs ih =>
    intro f hf hfm
    rcases List.mem_cons.mp hf with rfl | hf2
    · simp [stagedDeletes, hfm]
    · by_cases h : matchesDict cd g = true <;>
        simp [stagedDeletes, h, ih f hf2 hfm]

theorem stagedDeletes_fs (cd : ChecksumDict) (p ds : String) :
    ∀ files : List FileEntry, fsActions (stagedDeletes cd p ds files) = [] := by
  intro files
  induction files with
  | nil => rfl
  | cons f fs ih =>
    by_cases h : matchesDict cd f = true <;>
      simp [stagedDeletes, h, fsActions, Action.isFs, ih] <;>
        simpa [fsActions] using ih

end CNM

namespace CNM

theorem tm_yday_eq_ref (y m d : Nat) (h1 : 1 ≤ m) (h2 : m ≤ 12) :
    tm_yday y m d = refDayOfYear y m d := by
  interval_cases m <;>
    cases hl : isLeapYear y <;>
      simp [tm_yday, refDayOfYear, daysInMonth, hl, List.range_succ] <;> omega

theorem strptime14_bounds (s : String) (dt : PyDateTime)
    (h : strptime14 s = some dt) : 1 ≤ dt.month ∧ dt.month ≤ 12 := by
  simp only [strptime14] at h
  split_ifs at h with h1 h2
  · injection h with h3
    subst h3
    exact ⟨h2.2.1, h2.2.2.1⟩

/-- Claim C8: for every granule name whose field 0 (split on '-') parses as a
valid `yyyyMMddHHmmss` timestamp, the year and day-of-year components that
`remove_from_efs` uses to build the four filesystem paths equal the reference
calendar computation (`refDayOfYear`: day of month plus the lengths of the
preceding months) on the parsed timestamp. -/
theorem efs_year_doy_matches_reference (gname d0 efsDir : String)
    (dt : PyDateTime) (efs : Efs)
    (h4 : (pySplit gname '-')[4]? = some d0)
    (hts : strptime14 ((pySplit gname '-').headD "") = some dt)
    (hd : EFS_dict (normalize_dataset d0) = some efsDir) :
    remove_from_efs gname efs =
      efsDeleteRun (efs_paths efsDir (normalize_dataset d0) (natToStr dt.year)
        (natToStr (refDayOfYear dt.year dt.month dt.day)) gname) efs := by
  have hb := strptime14_bounds _ dt hts
  simp only [remove_from_efs, h4, hts, hd]
  rw [tm_yday_eq_ref dt.year dt.month dt.day hb.1 hb.2]

/-- Witness for C8 at the spec's example timestamp: field 0 of the name is
`20230115103045`, which parses to year 2023, and the reference day of year of
2023-01-15 is 15. -/
theorem efs_year_doy_matches_reference_witness :
    (pySplit "20230115103045-JPL-L2P-SST-MODIS_A-v02.0-fv01.0.nc" '-')[4]?
      = some "MODIS_A" ∧
    strptime14 ((pySplit "20230115103045-JPL-L2P-SST-MODIS_A-v02.0-fv01.0.nc" '-').headD "")
      = some (PyDateTime.mk 2023 1 15 10 30 45) ∧
    EFS_dict (normalize_dataset "MODIS_A") = some "MODIS_L2P_CORE_NETCDF" ∧
    refDayOfYear 2023 1 15 = 15 ∧
    natToStr 2023 = "2023" ∧
    natToStr 15 = "15" ∧
    remove_from_efs "20230115103045-JPL-L2P-SST-MODIS_A-v02.0-fv01.0.nc" (Efs.mk [] []) =
      efsDeleteRun (efs_paths "MODIS_L2P_CORE_NETCDF" (normalize_dataset "MODIS_A")
        (natToStr 2023) (natToStr (refDayOfYear 2023 1 15))
        "20230115103045-JPL-L2P-SST-MODIS_A-v02.0-fv01.0.nc") (Efs.mk [] []) :=
  ⟨by decide, by decide, by decide, by decide, by decide, by decide,
   efs_year_doy_matches_reference "20230115103045-JPL-L2P-SST-MODIS_A-v02.0-fv01.0.nc"
     "MODIS_A" "MODIS_L2P_CORE_NETCDF" (PyDateTime.mk 2023 1 15 10 30 45) (Efs.mk [] [])
     (by decide) (by decide) (by decide)⟩

/-- Claim C9: deleting a filesystem path that does not exist logs an
informational "does not exist" message, raises nothing, and leaves the
filesystem unchanged; an unlink error other than `FileNotFoundError`
propagates out of `delete_file`. -/
theorem delete_file_absent_noop (path : String) (efs : Efs) :
    (path ∉ efs.failing → path ∉ efs.files →
      delete_file path efs =
        Except.ok ([Action.fsMissing path,
          Action.logInfo (path ++ " does not exist on the EFS.")], efs)) ∧
    (path ∈ efs.failing →
      delete_file path efs = Except.error PyExn.osError) := by
  constructor
  · intro h1 h2
    simp [delete_file, h1, h2]
  · intro h1
    simp [delete_file, h1]

/-- Witness for C9: an absent path is a logged no-op; a failing path raises. -/
theorem delete_file_absent_noop_witness :
    ("p" ∉ (Efs.mk ["q"] []).failing ∧
     "p" ∉ (Efs.mk ["q"] []).files ∧
     delete_file "p" (Efs.mk ["q"] []) =
       Except.ok ([Action.fsMissing "p",
         Action.logInfo ("p" ++ " does not exist on the EFS.")], Efs.mk ["q"] [])) ∧
    ("p" ∈ (Efs.mk [] ["p"]).failing ∧
     delete_file "p" (Efs.mk [] ["p"]) = Except.error PyExn.osError) :=
  ⟨⟨by decide, by decide,
    (delete_file_absent_noop "p" (Efs.mk ["q"] [])).1 (by decide) (by decide)⟩,
   ⟨by decide, (delete_file_absent_noop "p" (Efs.mk [] ["p"])).2 (by decide)⟩⟩

end CNM

namespace CNM

/-- Claim C6: for every event with `response.status = "FAILURE"` (in a benign
SNS environment), the handler logs the message formatted as
"errorCode: errorMessage" together with the granule identifier and
collection, exits with status 1, and performs no object-store deletion and
no filesystem deletion. -/
theorem failure_event_logs_and_exits (ev : Event) (w : World)
    (hst : ev.status = "FAILURE") (hb : SnsBenign w.sns) :
    (cnm_handler ev w).2 = Ctl.exited 1 ∧
    Action.logError (ev.errorCode ++ ": " ++ ev.errorMessage) ∈ (cnm_handler ev w).1 ∧
    Action.logError ("Cumulus ingestion failed for " ++ ev.identifier ++ " in "
      ++ ev.collection) ∈ (cnm_handler ev w).1 ∧
    storageActions (cnm_handler ev w).1 = [] := by
  have hred : cnm_handler ev w =
      (Action.logInfo "EVENT" ::
        (handle_failure (ev.errorCode ++ ": " ++ ev.errorMessage)
          ev.identifier ev.collection w.sns).1,
       (handle_failure (ev.errorCode ++ ": " ++ ev.errorMessage)
          ev.identifier ev.collection w.sns).2) := by
    simp [cnm_handler, hst]
  rw [hred]
  refine ⟨handle_failure_ctl _ _ _ _ hb,
    List.mem_cons_of_mem _ (handle_failure_mem_msg _ _ _ _),
    List.mem_cons_of_mem _ (handle_failure_mem_ctx _ _ _ _), ?_⟩
  have h1 : Action.isStorage (Action.logInfo "EVENT") = false := rfl
  simp only [storageActions, List.filter, h1]
  exact handle_failure_storage _ _ _ _

end CNM

namespace CNM

/-- Witness for C6 at a concrete failure event. -/
theorem failure_event_logs_and_exits_witness :
    (Event.mk "g1" "coll" "tr" "FAILURE" "EC" "boom" []).status = "FAILURE" ∧
    SnsBenign (SnsWorld.mk ["x-batch-job-failure-y"] true true) ∧
    ((cnm_handler (Event.mk "g1" "coll" "tr" "FAILURE" "EC" "boom" [])
        (World.mk CmrResponse.malformed none noS3Fail (Efs.mk [] [])
          (SnsWorld.mk ["x-batch-job-failure-y"] true true))).2 = Ctl.exited 1 ∧
     Action.logError ("EC" ++ ": " ++ "boom")
       ∈ (cnm_handler (Event.mk "g1" "coll" "tr" "FAILURE" "EC" "boom" [])
            (World.mk CmrResponse.malformed none noS3Fail (Efs.mk [] [])
              (SnsWorld.mk ["x-batch-job-failure-y"] true true))).1 ∧
     Action.logError ("Cumulus ingestion failed for " ++ "g1" ++ " in " ++ "coll")
       ∈ (cnm_handler (Event.mk "g1" "coll" "tr" "FAILURE" "EC" "boom" [])
            (World.mk CmrResponse.malformed none noS3Fail (Efs.mk [] [])
              (SnsWorld.mk ["x-batch-job-failure-y"] true true))).1 ∧
     storageActions (cnm_handler (Event.mk "g1" "coll" "tr" "FAILURE" "EC" "boom" [])
        (World.mk CmrResponse.malformed none noS3Fail (Efs.mk [] [])
          (SnsWorld.mk ["x-batch-job-failure-y"] true true))).1 = []) :=
  ⟨rfl, Or.inr (by decide),
   failure_event_logs_and_exits
     (Event.mk "g1" "coll" "tr" "FAILURE" "EC" "boom" [])
     (World.mk CmrResponse.malformed none noS3Fail (Efs.mk [] [])
       (SnsWorld.mk ["x-batch-job-failure-y"] true true))
     rfl (Or.inr (by decide))⟩

end CNM

namespace CNM

theorem storageActions_cons_info (m : String) (l : List Action) :
    storageActions (Action.logInfo m :: l) = storageActions l := by
  simp [storageActions, List.filter, Action.isStorage]

theorem storageActions_cons_error (m : String) (l : List Action) :
    storageActions (Action.logError m :: l) = storageActions l := by
  simp [storageActions, List.filter, Action.isStorage]

/-- Claim C2: no object-store deletion and no filesystem deletion is
performed unless the catalog lookup returned a non-empty checksum record;
in particular a successful event whose token fetch succeeded and whose
catalog lookup returns zero hits makes the handler exit with status 1
without attempting any deletion. -/
theorem catalog_gate_before_deletion (ev : Event) (w : World) :
    ((run_query ev.identifier w.cmr).1.nonempty = false →
      storageActions (cnm_handler ev w).1 = []) ∧
    (∀ cmrFiles : List FileEntry, ∀ tok : String, ev.status = "SUCCESS" →
      w.edlToken = some tok → w.cmr = CmrResponse.body 0 cmrFiles →
      SnsBenign w.sns →
      (cnm_handler ev w).2 = Ctl.exited 1 ∧
      storageActions (cnm_handler ev w).1 = []) := by
  have hstore : (run_query ev.identifier w.cmr).1.nonempty = false →
      storageActions (cnm_handler ev w).1 = [] := by
    intro hne
    by_cases hst : ev.status = "FAILURE"
    · simp [cnm_handler, hst, storageActions_cons_info, handle_failure_storage]
    · cases htok : w.edlToken with
      | none =>
        simp [cnm_handler, hst, htok, handle_failure_exc, storageActions,
          Action.isStorage]
      | some tok =>
        simp [cnm_handler, hst, htok, hne, storageActions_cons_info,
          storageActions_append, run_query_storage, handle_failure_storage]
  refine ⟨hstore, ?_⟩
  intro cmrFiles tok hst htok hcmr hb
  have hne : (run_query ev.identifier w.cmr).1.nonempty = false := by
    rw [hcmr]; simp [run_query, ChecksumDict.nonempty]
  have hstf : ¬ ev.status = "FAILURE" := by rw [hst]; decide
  refine ⟨?_, hstore hne⟩
  have h := handle_failure_ctl ("Searched failed for " ++ ev.identifier ++ " from "
    ++ ev.collection ++ ".") ev.identifier ev.collection w.sns hb
  simp [cnm_handler, hstf, htok, hne, h]

/-- Witness for C2 at a concrete successful event whose catalog lookup
returns zero hits. -/
theorem catalog_gate_before_deletion_witness :
    (run_query "g1" (CmrResponse.body 0 [])).1.nonempty = false ∧
    (Event.mk "g1" "coll" "tr" "SUCCESS" "" "" []).status = "SUCCESS" ∧
    (World.mk (CmrResponse.body 0 []) (some "tok") noS3Fail (Efs.mk [] [])
      (SnsWorld.mk ["x-batch-job-failure-y"] true true)).edlToken = some "tok" ∧
    SnsBenign (SnsWorld.mk ["x-batch-job-failure-y"] true true) ∧
    ((cnm_handler (Event.mk "g1" "coll" "tr" "SUCCESS" "" "" [])
        (World.mk (CmrResponse.body 0 []) (some "tok") noS3Fail (Efs.mk [] [])
          (SnsWorld.mk ["x-batch-job-failure-y"] true true))).2 = Ctl.exited 1 ∧
     storageActions (cnm_handler (Event.mk "g1" "coll" "tr" "SUCCESS" "" "" [])
        (World.mk (CmrResponse.body 0 []) (some "tok") noS3Fail (Efs.mk [] [])
          (SnsWorld.mk ["x-batch-job-failure-y"] true true))).1 = []) :=
  ⟨by decide, rfl, rfl, Or.inr (by decide),
   (catalog_gate_before_deletion (Event.mk "g1" "coll" "tr" "SUCCESS" "" "" [])
      (World.mk (CmrResponse.body 0 []) (some "tok") noS3Fail (Efs.mk [] [])
        (SnsWorld.mk ["x-batch-job-failure-y"] true true))).2 [] "tok"
     rfl rfl rfl (Or.inr (by decide))⟩

end CNM

namespace CNM

theorem fsActions_cons_info (m : String) (l : List Action) :
    fsActions (Action.logInfo m :: l) = fsActions l := by
  simp [fsActions, List.filter, Action.isFs]

theorem fsActions_cons_error (m : String) (l : List Action) :
    fsActions (Action.logError m :: l) = fsActions l := by
  simp [fsActions, List.filter, Action.isFs]

theorem fsActions_map_logError (ns : List String) :
    fsActions (ns.map Action.logError) = [] := by
  induction ns with
  | nil => rfl
  | cons n ns ih =>
    rw [List.map_cons, fsActions_cons_error, ih]

theorem publishActions_cons_info (m : String) (l : List Action) :
    publishActions (Action.logInfo m :: l) = publishActions l := by
  simp [publishActions, List.filter]

theorem publishActions_nil : publishActions [] = [] := rfl

/-- Success-path run with at least one checksum mismatch: the staged-copy
pass finishes (all matching files deleted), the mismatches are reported, the
process exits 1 and no filesystem action happens. -/
theorem success_mismatch_run (ident coll tr ec em tok : String)
    (files cmrFiles : List FileEntry) (s3f : String → Bool) (efs : Efs)
    (sns : SnsWorld) (cd : ChecksumDict) (hits : Nat) (d0 ds : String)
    (hhits : 0 < hits)
    (hcd : buildChecksumDict cmrFiles (ChecksumDict.mk none none) = cd)
    (hne : cd.nonempty = true)
    (h4 : (pySplit ident '-')[4]? = some d0)
    (hS3 : S3_dict (normalize_dataset d0) = some ds)
    (hs : ∀ k, s3f k = false)
    (hk : ∀ f ∈ files, kindKeyPresent cd f = true)
    (herr : mismatchNames cd files ≠ []) :
    (cnm_handler (Event.mk ident coll tr "SUCCESS" ec em files)
        (World.mk (CmrResponse.body hits cmrFiles) (some tok) s3f efs sns)).2
      = Ctl.exited 1 ∧
    fsActions (cnm_handler (Event.mk ident coll tr "SUCCESS" ec em files)
        (World.mk (CmrResponse.body hits cmrFiles) (some tok) s3f efs sns)).1 = [] ∧
    (∀ f ∈ files, matchesDict cd f = true →
      Action.s3Delete (tr ++ "-l2p-granules") (ds ++ "/" ++ f.name)
        ∈ (cnm_handler (Event.mk ident coll tr "SUCCESS" ec em files)
            (World.mk (CmrResponse.body hits cmrFiles) (some tok) s3f efs sns)).1) ∧
    (∀ n ∈ mismatchNames cd files,
      Action.logError n
        ∈ (cnm_handler (Event.mk ident coll tr "SUCCESS" ec em files)
            (World.mk (CmrResponse.body hits cmrFiles) (some tok) s3f efs sns)).1) := by
  have hrsf := rsf_eq cd tr ds s3f hs files hk
  have hlen : 0 < (mismatchNames cd files).length := List.length_pos.mpr herr
  refine ⟨?_, ?_, ?_, ?_⟩
  · simp [cnm_handler, run_query, hhits, hcd, hne, h4, hS3, hrsf, hlen,
      report_checksum_errors]
  · simp [cnm_handler, run_query, hhits, hcd, hne, h4, hS3, hrsf, hlen,
      report_checksum_errors, fsActions_cons_info, fsActions_cons_error,
      fsActions_append, stagedDeletes_fs, fsActions_map_logError]
  · intro f hf hm
    have hd := stagedDeletes_mem cd tr ds files f hf hm
    simp [cnm_handler, run_query, hhits, hcd, hne, h4, hS3, hrsf, hlen,
      report_checksum_errors, List.mem_append, List.mem_cons, hd]
  · intro n hn
    have hd := List.mem_map_of_mem Action.logError hn
    simp [cnm_handler, run_query, hhits, hcd, hne, h4, hS3, hrsf, hlen,
      report_checksum_errors, List.mem_append, List.mem_cons, hd]

/-- Success-path run with no checksum mismatch: every matching file is
deleted from the staging bucket, the EFS cleanup runs, and the handler
returns normally (process exit 0). -/
theorem success_clean_run (ident coll tr ec em tok : String)
    (files cmrFiles : List FileEntry) (s3f : String → Bool) (efs : Efs)
    (sns : SnsWorld) (cd : ChecksumDict) (hits : Nat) (d0 ds : String)
    (ea : List Action) (efs2 : Efs)
    (hhits : 0 < hits)
    (hcd : buildChecksumDict cmrFiles (ChecksumDict.mk none none) = cd)
    (hne : cd.nonempty = true)
    (h4 : (pySplit ident '-')[4]? = some d0)
    (hS3 : S3_dict (normalize_dataset d0) = some ds)
    (hs : ∀ k, s3f k = false)
    (hk : ∀ f ∈ files, kindKeyPresent cd f = true)
    (herr : mismatchNames cd files = [])
    (hefs : remove_from_efs (ident ++ ".nc") efs = Except.ok (ea, efs2)) :
    (cnm_handler (Event.mk ident coll tr "SUCCESS" ec em files)
        (World.mk (CmrResponse.body hits cmrFiles) (some tok) s3f efs sns)).2
      = Ctl.ok ∧
    (∀ f ∈ files, matchesDict cd f = true →
      Action.s3Delete (tr ++ "-l2p-granules") (ds ++ "/" ++ f.name)
        ∈ (cnm_handler (Event.mk ident coll tr "SUCCESS" ec em files)
            (World.mk (CmrResponse.body hits cmrFiles) (some tok) s3f efs sns)).1) := by
  have hrsf := rsf_eq cd tr ds s3f hs files hk
  refine ⟨?_, ?_⟩
  · simp [cnm_handler, run_query, hhits, hcd, hne, h4, hS3, hrsf, herr, hefs]
  · intro f hf hm
    have hd := stagedDeletes_mem cd tr ds files f hf hm
    simp [cnm_handler, run_query, hhits, hcd, hne, h4, hS3, hrsf, herr, hefs,
      List.mem_append, List.mem_cons, hd]

/-- Success-path run in which some produced file's kind has no entry in the
checksum dict: the `KeyError` escapes (it is not a `ClientError`), so the
handler neither exits nor reports through the failure path. -/
theorem success_keyerror_run (ident coll tr ec em tok : String)
    (files cmrFiles : List FileEntry) (s3f : String → Bool) (efs : Efs)
    (sns : SnsWorld) (cd : ChecksumDict) (hits : Nat) (d0 ds : String)
    (hhits : 0 < hits)
    (hcd : buildChecksumDict cmrFiles (ChecksumDict.mk none none) = cd)
    (hne : cd.nonempty = true)
    (h4 : (pySplit ident '-')[4]? = some d0)
    (hS3 : S3_dict (normalize_dataset d0) = some ds)
    (hs : ∀ k, s3f k = false)
    (hbad : ∃ f ∈ files, kindKeyPresent cd f = false) :
    remove_staged_file cd tr ds files s3f = Except.error PyExn.keyError ∧
    (cnm_handler (Event.mk ident coll tr "SUCCESS" ec em files)
        (World.mk (CmrResponse.body hits cmrFiles) (some tok) s3f efs sns)).2
      = Ctl.raised PyExn.keyError ∧
    publishActions (cnm_handler (Event.mk ident coll tr "SUCCESS" ec em files)
        (World.mk (CmrResponse.body hits cmrFiles) (some tok) s3f efs sns)).1 = [] := by
  have hrsf := rsf_keyError cd tr ds s3f hs files hbad
  refine ⟨hrsf, ?_, ?_⟩
  · simp [cnm_handler, run_query, hhits, hcd, hne, h4, hS3, hrsf]
  · simp [cnm_handler, run_query, hhits, hcd, hne, h4, hS3, hrsf,
      publishActions_cons_info, publishActions_nil]

end CNM

namespace CNM

/-- Counterexample to C1: a successful event with a non-empty checksum record
and one checksum-mismatched file. The staged-copy pass runs (the matching
`.nc` file is deleted from the bucket) and the mismatch is reported, but the
process exits with status 1 performing no filesystem action at all: the
filesystem-cleanup step is not attempted after a mismatch. -/
theorem mismatch_skips_fs_counterexample :
    (cnm_handler
      (Event.mk "20230115103045-JPL-L2P-SST-MODIS_A-v02.0-fv01.0" "C" "tr" "SUCCESS" "" ""
        [FileEntry.mk "20230115103045-JPL-L2P-SST-MODIS_A-v02.0-fv01.0.nc" "abc",
         FileEntry.mk "20230115103045-JPL-L2P-SST-MODIS_A-v02.0-fv01.0.md5" "zzz"])
      (World.mk
        (CmrResponse.body 1
          [FileEntry.mk "20230115103045-JPL-L2P-SST-MODIS_A-v02.0-fv01.0.nc" "abc",
           FileEntry.mk "20230115103045-JPL-L2P-SST-MODIS_A-v02.0-fv01.0.md5" "ddd"])
        (some "tok") noS3Fail (Efs.mk [] [])
        (SnsWorld.mk ["x-batch-job-failure-y"] true true))).2 = Ctl.exited 1 ∧
    fsActions (cnm_handler
      (Event.mk "20230115103045-JPL-L2P-SST-MODIS_A-v02.0-fv01.0" "C" "tr" "SUCCESS" "" ""
        [FileEntry.mk "20230115103045-JPL-L2P-SST-MODIS_A-v02.0-fv01.0.nc" "abc",
         FileEntry.mk "20230115103045-JPL-L2P-SST-MODIS_A-v02.0-fv01.0.md5" "zzz"])
      (World.mk
        (CmrResponse.body 1
          [FileEntry.mk "20230115103045-JPL-L2P-SST-MODIS_A-v02.0-fv01.0.nc" "abc",
           FileEntry.mk "20230115103045-JPL-L2P-SST-MODIS_A-v02.0-fv01.0.md5" "ddd"])
        (some "tok") noS3Fail (Efs.mk [] [])
        (SnsWorld.mk ["x-batch-job-failure-y"] true true))).1 = [] ∧
    Action.s3Delete "tr-l2p-granules"
        "aqua/20230115103045-JPL-L2P-SST-MODIS_A-v02.0-fv01.0.nc"
      ∈ (cnm_handler
      (Event.mk "20230115103045-JPL-L2P-SST-MODIS_A-v02.0-fv01.0" "C" "tr" "SUCCESS" "" ""
        [FileEntry.mk "20230115103045-JPL-L2P-SST-MODIS_A-v02.0-fv01.0.nc" "abc",
         FileEntry.mk "20230115103045-JPL-L2P-SST-MODIS_A-v02.0-fv01.0.md5" "zzz"])
      (World.mk
        (CmrResponse.body 1
          [FileEntry.mk "20230115103045-JPL-L2P-SST-MODIS_A-v02.0-fv01.0.nc" "abc",
           FileEntry.mk "20230115103045-JPL-L2P-SST-MODIS_A-v02.0-fv01.0.md5" "ddd"])
        (some "tok") noS3Fail (Efs.mk [] [])
        (SnsWorld.mk ["x-batch-job-failure-y"] true true))).1 := by
  refine ⟨by decide, by decide, by decide⟩

/-- Claim C1 (amended): for a successful event with a non-empty checksum
record, the object-store pass is attempted for every produced file even when
some files mismatch — every matching file is deleted and every mismatched
name is reported — but the mismatch report then terminates the invocation
with exit status 1 before the filesystem-cleanup step, so no filesystem
removal is attempted. -/
theorem mismatch_halts_before_fs (ident coll tr ec em tok : String)
    (files cmrFiles : List FileEntry) (s3f : String → Bool) (efs : Efs)
    (sns : SnsWorld) (cd : ChecksumDict) (hits : Nat) (d0 ds : String)
    (hhits : 0 < hits)
    (hcd : buildChecksumDict cmrFiles (ChecksumDict.mk none none) = cd)
    (hne : cd.nonempty = true)
    (h4 : (pySplit ident '-')[4]? = some d0)
    (hS3 : S3_dict (normalize_dataset d0) = some ds)
    (hs : ∀ k, s3f k = false)
    (hk : ∀ f ∈ files, kindKeyPresent cd f = true)
    (hmis : ∃ f ∈ files, mismatchesDict cd f = true) :
    (cnm_handler (Event.mk ident coll tr "SUCCESS" ec em files)
        (World.mk (CmrResponse.body hits cmrFiles) (some tok) s3f efs sns)).2
      = Ctl.exited 1 ∧
    fsActions (cnm_handler (Event.mk ident coll tr "SUCCESS" ec em files)
        (World.mk (CmrResponse.body hits cmrFiles) (some tok) s3f efs sns)).1 = [] ∧
    (∀ f ∈ files, matchesDict cd f = true →
      Action.s3Delete (tr ++ "-l2p-granules") (ds ++ "/" ++ f.name)
        ∈ (cnm_handler (Event.mk ident coll tr "SUCCESS" ec em files)
            (World.mk (CmrResponse.body hits cmrFiles) (some tok) s3f efs sns)).1) ∧
    (∀ n ∈ mismatchNames cd files,
      Action.logError n
        ∈ (cnm_handler (Event.mk ident coll tr "SUCCESS" ec em files)
            (World.mk (CmrResponse.body hits cmrFiles) (some tok) s3f efs sns)).1) := by
  obtain ⟨g, hg, hgm⟩ := hmis
  have herr : mismatchNames cd files ≠ [] :=
    List.ne_nil_of_mem (mismatchNames_mem cd files g hg hgm)
  exact success_mismatch_run ident coll tr ec em tok files cmrFiles s3f efs sns
    cd hits d0 ds hhits hcd hne h4 hS3 hs hk herr

/-- Witness for the amended C1 at the counterexample's concrete event. -/
theorem mismatch_halts_before_fs_witness :
    (0 : Nat) < 1 ∧
    buildChecksumDict
        [FileEntry.mk "20230115103045-JPL-L2P-SST-MODIS_A-v02.0-fv01.0.nc" "abc",
         FileEntry.mk "20230115103045-JPL-L2P-SST-MODIS_A-v02.0-fv01.0.md5" "ddd"]
        (ChecksumDict.mk none none) = ChecksumDict.mk (some "abc") (some "ddd") ∧
    (ChecksumDict.mk (some "abc") (some "ddd")).nonempty = true ∧
    (pySplit "20230115103045-JPL-L2P-SST-MODIS_A-v02.0-fv01.0" '-')[4]? = some "MODIS_A" ∧
    S3_dict (normalize_dataset "MODIS_A") = some "aqua" ∧
    (∃ f ∈ [FileEntry.mk "20230115103045-JPL-L2P-SST-MODIS_A-v02.0-fv01.0.nc" "abc",
            FileEntry.mk "20230115103045-JPL-L2P-SST-MODIS_A-v02.0-fv01.0.md5" "zzz"],
      mismatchesDict (ChecksumDict.mk (some "abc") (some "ddd")) f = true) ∧
    (cnm_handler
      (Event.mk "20230115103045-JPL-L2P-SST-MODIS_A-v02.0-fv01.0" "C" "tr" "SUCCESS" "" ""
        [FileEntry.mk "20230115103045-JPL-L2P-SST-MODIS_A-v02.0-fv01.0.nc" "abc",
         FileEntry.mk "20230115103045-JPL-L2P-SST-MODIS_A-v02.0-fv01.0.md5" "zzz"])
      (World.mk
        (CmrResponse.body 1
          [FileEntry.mk "20230115103045-JPL-L2P-SST-MODIS_A-v02.0-fv01.0.nc" "abc",
           FileEntry.mk "20230115103045-JPL-L2P-SST-MODIS_A-v02.0-fv01.0.md5" "ddd"])
        (some "tok") noS3Fail (Efs.mk [] [])
        (SnsWorld.mk ["x-batch-job-failure-y"] true true))).2 = Ctl.exited 1 ∧
    fsActions (cnm_handler
      (Event.mk "20230115103045-JPL-L2P-SST-MODIS_A-v02.0-fv01.0" "C" "tr" "SUCCESS" "" ""
        [FileEntry.mk "20230115103045-JPL-L2P-SST-MODIS_A-v02.0-fv01.0.nc" "abc",
         FileEntry.mk "20230115103045-JPL-L2P-SST-MODIS_A-v02.0-fv01.0.md5" "zzz"])
      (World.mk
        (CmrResponse.body 1
          [FileEntry.mk "20230115103045-JPL-L2P-SST-MODIS_A-v02.0-fv01.0.nc" "abc",
           FileEntry.mk "20230115103045-JPL-L2P-SST-MODIS_A-v02.0-fv01.0.md5" "ddd"])
        (some "tok") noS3Fail (Efs.mk [] [])
        (SnsWorld.mk ["x-batch-job-failure-y"] true true))).1 = [] :=
  ⟨by decide, by decide, by decide, by decide, by decide, by decide,
   (mismatch_halts_before_fs "20230115103045-JPL-L2P-SST-MODIS_A-v02.0-fv01.0" "C" "tr"
      "" "" "tok"
      [FileEntry.mk "20230115103045-JPL-L2P-SST-MODIS_A-v02.0-fv01.0.nc" "abc",
       FileEntry.mk "20230115103045-JPL-L2P-SST-MODIS_A-v02.0-fv01.0.md5" "zzz"]
      [FileEntry.mk "20230115103045-JPL-L2P-SST-MODIS_A-v02.0-fv01.0.nc" "abc",
       FileEntry.mk "20230115103045-JPL-L2P-SST-MODIS_A-v02.0-fv01.0.md5" "ddd"]
      noS3Fail (Efs.mk [] []) (SnsWorld.mk ["x-batch-job-failure-y"] true true)
      (ChecksumDict.mk (some "abc") (some "ddd")) 1 "MODIS_A" "aqua"
      (by decide) (by decide) (by decide) (by decide) (by decide)
      (fun k => rfl) (by decide) (by decide)).1,
   (mismatch_halts_before_fs "20230115103045-JPL-L2P-SST-MODIS_A-v02.0-fv01.0" "C" "tr"
      "" "" "tok"
      [FileEntry.mk "20230115103045-JPL-L2P-SST-MODIS_A-v02.0-fv01.0.nc" "abc",
       FileEntry.mk "20230115103045-JPL-L2P-SST-MODIS_A-v02.0-fv01.0.md5" "zzz"]
      [FileEntry.mk "20230115103045-JPL-L2P-SST-MODIS_A-v02.0-fv01.0.nc" "abc",
       FileEntry.mk "20230115103045-JPL-L2P-SST-MODIS_A-v02.0-fv01.0.md5" "ddd"]
      noS3Fail (Efs.mk [] []) (SnsWorld.mk ["x-batch-job-failure-y"] true true)
      (ChecksumDict.mk (some "abc") (some "ddd")) 1 "MODIS_A" "aqua"
      (by decide) (by decide) (by decide) (by decide) (by decide)
      (fun k => rfl) (by decide) (by decide)).2.1⟩

end CNM

namespace CNM

/-- Claim C3: for a successful event with a non-empty checksum record in
which every produced file is classified and its checksum equals the
catalog's recorded checksum for its kind, every produced file is deleted
from the object store (bucket derived from the deployment prefix, key the
dataset-prefixed file name) and the handler returns normally, so the
process exits with status 0. -/
theorem all_match_all_deleted_exit0 (ident coll tr ec em tok : String)
    (files cmrFiles : List FileEntry) (s3f : String → Bool) (efs : Efs)
    (sns : SnsWorld) (cd : ChecksumDict) (hits : Nat) (d0 ds : String)
    (ea : List Action) (efs2 : Efs)
    (hhits : 0 < hits)
    (hcd : buildChecksumDict cmrFiles (ChecksumDict.mk none none) = cd)
    (hne : cd.nonempty = true)
    (h4 : (pySplit ident '-')[4]? = some d0)
    (hS3 : S3_dict (normalize_dataset d0) = some ds)
    (hs : ∀ k, s3f k = false)
    (hmatch : ∀ f ∈ files, matchesDict cd f = true)
    (hefs : remove_from_efs (ident ++ ".nc") efs = Except.ok (ea, efs2)) :
    (cnm_handler (Event.mk ident coll tr "SUCCESS" ec em files)
        (World.mk (CmrResponse.body hits cmrFiles) (some tok) s3f efs sns)).2
      = Ctl.ok ∧
    (∀ f ∈ files,
      Action.s3Delete (tr ++ "-l2p-granules") (ds ++ "/" ++ f.name)
        ∈ (cnm_handler (Event.mk ident coll tr "SUCCESS" ec em files)
            (World.mk (CmrResponse.body hits cmrFiles) (some tok) s3f efs sns)).1) := by
  have hk : ∀ f ∈ files, kindKeyPresent cd f = true :=
    fun f hf => matchesDict_key cd f (hmatch f hf)
  have herr := mismatchNames_nil cd files hmatch
  have h := success_clean_run ident coll tr ec em tok files cmrFiles s3f efs sns
    cd hits d0 ds ea efs2 hhits hcd hne h4 hS3 hs hk herr hefs
  exact ⟨h.1, fun f hf => h.2 f hf (hmatch f hf)⟩

/-- Witness for C3: both produced files match the catalog record; both are
deleted from the staging bucket and the handler returns normally. -/
theorem all_match_all_deleted_exit0_witness :
    (∀ f ∈ [FileEntry.mk "20230115103045-JPL-L2P-SST-MODIS_A-v02.0-fv01.0.nc" "abc",
            FileEntry.mk "20230115103045-JPL-L2P-SST-MODIS_A-v02.0-fv01.0.md5" "ddd"],
      matchesDict (ChecksumDict.mk (some "abc") (some "ddd")) f = true) ∧
    (cnm_handler
      (Event.mk "20230115103045-JPL-L2P-SST-MODIS_A-v02.0-fv01.0" "C" "tr" "SUCCESS" "" ""
        [FileEntry.mk "20230115103045-JPL-L2P-SST-MODIS_A-v02.0-fv01.0.nc" "abc",
         FileEntry.mk "20230115103045-JPL-L2P-SST-MODIS_A-v02.0-fv01.0.md5" "ddd"])
      (World.mk
        (CmrResponse.body 1
          [FileEntry.mk "20230115103045-JPL-L2P-SST-MODIS_A-v02.0-fv01.0.nc" "abc",
           FileEntry.mk "20230115103045-JPL-L2P-SST-MODIS_A-v02.0-fv01.0.md5" "ddd"])
        (some "tok") noS3Fail (Efs.mk [] [])
        (SnsWorld.mk ["x-batch-job-failure-y"] true true))).2 = Ctl.ok ∧
    (∀ f ∈ [FileEntry.mk "20230115103045-JPL-L2P-SST-MODIS_A-v02.0-fv01.0.nc" "abc",
            FileEntry.mk "20230115103045-JPL-L2P-SST-MODIS_A-v02.0-fv01.0.md5" "ddd"],
      Action.s3Delete ("tr" ++ "-l2p-granules") ("aqua" ++ "/" ++ f.name)
        ∈ (cnm_handler
          (Event.mk "20230115103045-JPL-L2P-SST-MODIS_A-v02.0-fv01.0" "C" "tr" "SUCCESS" "" ""
            [FileEntry.mk "20230115103045-JPL-L2P-SST-MODIS_A-v02.0-fv01.0.nc" "abc",
             FileEntry.mk "20230115103045-JPL-L2P-SST-MODIS_A-v02.0-fv01.0.md5" "ddd"])
          (World.mk
            (CmrResponse.body 1
              [FileEntry.mk "20230115103045-JPL-L2P-SST-MODIS_A-v02.0-fv01.0.nc" "abc",
               FileEntry.mk "20230115103045-JPL-L2P-SST-MODIS_A-v02.0-fv01.0.md5" "ddd"])
            (some "tok") noS3Fail (Efs.mk [] [])
            (SnsWorld.mk ["x-batch-job-failure-y"] true true))).1) :=
  ⟨by decide,
   (all_match_all_deleted_exit0 "20230115103045-JPL-L2P-SST-MODIS_A-v02.0-fv01.0" "C" "tr"
      "" "" "tok"
      [FileEntry.mk "20230115103045-JPL-L2P-SST-MODIS_A-v02.0-fv01.0.nc" "abc",
       FileEntry.mk "20230115103045-JPL-L2P-SST-MODIS_A-v02.0-fv01.0.md5" "ddd"]
      [FileEntry.mk "20230115103045-JPL-L2P-SST-MODIS_A-v02.0-fv01.0.nc" "abc",
       FileEntry.mk "20230115103045-JPL-L2P-SST-MODIS_A-v02.0-fv01.0.md5" "ddd"]
      noS3Fail (Efs.mk [] []) (SnsWorld.mk ["x-batch-job-failure-y"] true true)
      (ChecksumDict.mk (some "abc") (some "ddd")) 1 "MODIS_A" "aqua" _ _
      (by decide) (by decide) (by decide) (by decide) (by decide)
      (fun k => rfl) (by decide) rfl).1,
   (all_match_all_deleted_exit0 "20230115103045-JPL-L2P-SST-MODIS_A-v02.0-fv01.0" "C" "tr"
      "" "" "tok"
      [FileEntry.mk "20230115103045-JPL-L2P-SST-MODIS_A-v02.0-fv01.0.nc" "abc",
       FileEntry.mk "20230115103045-JPL-L2P-SST-MODIS_A-v02.0-fv01.0.md5" "ddd"]
      [FileEntry.mk "20230115103045-JPL-L2P-SST-MODIS_A-v02.0-fv01.0.nc" "abc",
       FileEntry.mk "20230115103045-JPL-L2P-SST-MODIS_A-v02.0-fv01.0.md5" "ddd"]
      noS3Fail (Efs.mk [] []) (SnsWorld.mk ["x-batch-job-failure-y"] true true)
      (ChecksumDict.mk (some "abc") (some "ddd")) 1 "MODIS_A" "aqua" _ _
      (by decide) (by decide) (by decide) (by decide) (by decide)
      (fun k => rfl) (by decide) rfl).2⟩

end CNM

namespace CNM

/-- Claim C4: for a successful event in which exactly one produced file's
checksum disagrees with the catalog's recorded checksum for its kind (all
other produced files matching), `remove_staged_file` returns exactly that
file's name, the name is reported via an error log, every other file is
still deleted from the object store (the loop is not aborted early), and
the process exits with status 1. -/
theorem single_mismatch_reported_others_deleted (ident coll tr ec em tok : String)
    (pre post cmrFiles : List FileEntry) (bad : FileEntry)
    (s3f : String → Bool) (efs : Efs) (sns : SnsWorld)
    (cd : ChecksumDict) (hits : Nat) (d0 ds : String)
    (hhits : 0 < hits)
    (hcd : buildChecksumDict cmrFiles (ChecksumDict.mk none none) = cd)
    (hne : cd.nonempty = true)
    (h4 : (pySplit ident '-')[4]? = some d0)
    (hS3 : S3_dict (normalize_dataset d0) = some ds)
    (hs : ∀ k, s3f k = false)
    (hmatch : ∀ f ∈ pre ++ post, matchesDict cd f = true)
    (hbad : mismatchesDict cd bad = true)
    (hbadk : kindKeyPresent cd bad = true) :
    remove_staged_file cd tr ds (pre ++ bad :: post) s3f =
      Except.ok ([bad.name], stagedDeletes cd tr ds (pre ++ bad :: post)) ∧
    (cnm_handler (Event.mk ident coll tr "SUCCESS" ec em (pre ++ bad :: post))
        (World.mk (CmrResponse.body hits cmrFiles) (some tok) s3f efs sns)).2
      = Ctl.exited 1 ∧
    Action.logError bad.name
      ∈ (cnm_handler (Event.mk ident coll tr "SUCCESS" ec em (pre ++ bad :: post))
          (World.mk (CmrResponse.body hits cmrFiles) (some tok) s3f efs sns)).1 ∧
    (∀ f ∈ pre ++ post,
      Action.s3Delete (tr ++ "-l2p-granules") (ds ++ "/" ++ f.name)
        ∈ (cnm_handler (Event.mk ident coll tr "SUCCESS" ec em (pre ++ bad :: post))
            (World.mk (CmrResponse.body hits cmrFiles) (some tok) s3f efs sns)).1) := by
  have hmpre : ∀ f ∈ pre, matchesDict cd f = true :=
    fun f hf => hmatch f (List.mem_append_left _ hf)
  have hmpost : ∀ f ∈ post, matchesDict cd f = true :=
    fun f hf => hmatch f (List.mem_append_right _ hf)
  have hk : ∀ f ∈ pre ++ bad :: post, kindKeyPresent cd f = true := by
    intro f hf
    rcases List.mem_append.mp hf with h1 | h2
    · exact matchesDict_key cd f (hmpre f h1)
    · rcases List.mem_cons.mp h2 with rfl | h3
      · exact hbadk
      · exact matchesDict_key cd f (hmpost f h3)
  have herr : mismatchNames cd (pre ++ bad :: post) = [bad.name] := by
    rw [mismatchNames_append, mismatchNames_nil cd pre hmpre]
    simp [mismatchNames, hbad, mismatchNames_nil cd post hmpost]
  have herrne : mismatchNames cd (pre ++ bad :: post) ≠ [] := by
    rw [herr]; simp
  have h := success_mismatch_run ident coll tr ec em tok (pre ++ bad :: post)
    cmrFiles s3f efs sns cd hits d0 ds hhits hcd hne h4 hS3 hs hk herrne
  refine ⟨?_, h.1, ?_, ?_⟩
  · rw [rsf_eq cd tr ds s3f hs _ hk, herr]
  · exact h.2.2.2 bad.name (by rw [herr]; simp)
  · intro f hf
    refine h.2.2.1 f ?_ (hmatch f hf)
    rcases List.mem_append.mp hf with h1 | h2
    · exact List.mem_append_left _ h1
    · exact List.mem_append_right _ (List.mem_cons_of_mem bad h2)

/-- Witness for C4: the `.md5` sidecar mismatches; its name is returned and
reported, the matching `.nc` file is still deleted, the process exits 1. -/
theorem single_mismatch_reported_others_deleted_witness :
    (∀ f ∈ [FileEntry.mk "20230115103045-JPL-L2P-SST-MODIS_A-v02.0-fv01.0.nc" "abc"] ++
        ([] : List FileEntry),
      matchesDict (ChecksumDict.mk (some "abc") (some "ddd")) f = true) ∧
    mismatchesDict (ChecksumDict.mk (some "abc") (some "ddd"))
      (FileEntry.mk "20230115103045-JPL-L2P-SST-MODIS_A-v02.0-fv01.0.md5" "zzz") = true ∧
    remove_staged_file (ChecksumDict.mk (some "abc") (some "ddd")) "tr" "aqua"
      ([FileEntry.mk "20230115103045-JPL-L2P-SST-MODIS_A-v02.0-fv01.0.nc" "abc"] ++
        FileEntry.mk "20230115103045-JPL-L2P-SST-MODIS_A-v02.0-fv01.0.md5" "zzz" :: [])
      noS3Fail =
      Except.ok (["20230115103045-JPL-L2P-SST-MODIS_A-v02.0-fv01.0.md5"],
        stagedDeletes (ChecksumDict.mk (some "abc") (some "ddd")) "tr" "aqua"
          ([FileEntry.mk "20230115103045-JPL-L2P-SST-MODIS_A-v02.0-fv01.0.nc" "abc"] ++
            FileEntry.mk "20230115103045-JPL-L2P-SST-MODIS_A-v02.0-fv01.0.md5" "zzz" :: [])) ∧
    (cnm_handler
      (Event.mk "20230115103045-JPL-L2P-SST-MODIS_A-v02.0-fv01.0" "C" "tr" "SUCCESS" "" ""
        ([FileEntry.mk "20230115103045-JPL-L2P-SST-MODIS_A-v02.0-fv01.0.nc" "abc"] ++
          FileEntry.mk "20230115103045-JPL-L2P-SST-MODIS_A-v02.0-fv01.0.md5" "zzz" :: []))
      (World.mk
        (CmrResponse.body 1
          [FileEntry.mk "20230115103045-JPL-L2P-SST-MODIS_A-v02.0-fv01.0.nc" "abc",
           FileEntry.mk "20230115103045-JPL-L2P-SST-MODIS_A-v02.0-fv01.0.md5" "ddd"])
        (some "tok") noS3Fail (Efs.mk [] [])
        (SnsWorld.mk ["x-batch-job-failure-y"] true true))).2 = Ctl.exited 1 :=
  ⟨by decide, by decide,
   (single_mismatch_reported_others_deleted
      "20230115103045-JPL-L2P-SST-MODIS_A-v02.0-fv01.0" "C" "tr" "" "" "tok"
      [FileEntry.mk "20230115103045-JPL-L2P-SST-MODIS_A-v02.0-fv01.0.nc" "abc"] []
      [FileEntry.mk "20230115103045-JPL-L2P-SST-MODIS_A-v02.0-fv01.0.nc" "abc",
       FileEntry.mk "20230115103045-JPL-L2P-SST-MODIS_A-v02.0-fv01.0.md5" "ddd"]
      (FileEntry.mk "20230115103045-JPL-L2P-SST-MODIS_A-v02.0-fv01.0.md5" "zzz")
      noS3Fail (Efs.mk [] []) (SnsWorld.mk ["x-batch-job-failure-y"] true true)
      (ChecksumDict.mk (some "abc") (some "ddd")) 1 "MODIS_A" "aqua"
      (by decide) (by decide) (by decide) (by decide) (by decide)
      (fun k => rfl) (by decide) (by decide) (by decide)).1,
   (single_mismatch_reported_others_deleted
      "20230115103045-JPL-L2P-SST-MODIS_A-v02.0-fv01.0" "C" "tr" "" "" "tok"
      [FileEntry.mk "20230115103045-JPL-L2P-SST-MODIS_A-v02.0-fv01.0.nc" "abc"] []
      [FileEntry.mk "20230115103045-JPL-L2P-SST-MODIS_A-v02.0-fv01.0.nc" "abc",
       FileEntry.mk "20230115103045-JPL-L2P-SST-MODIS_A-v02.0-fv01.0.md5" "ddd"]
      (FileEntry.mk "20230115103045-JPL-L2P-SST-MODIS_A-v02.0-fv01.0.md5" "zzz")
      noS3Fail (Efs.mk [] []) (SnsWorld.mk ["x-batch-job-failure-y"] true true)
      (ChecksumDict.mk (some "abc") (some "ddd")) 1 "MODIS_A" "aqua"
      (by decide) (by decide) (by decide) (by decide) (by decide)
      (fun k => rfl) (by decide) (by decide) (by decide)).2.1⟩

end CNM

namespace CNM

/-- Counterexample to C5: a produced file named "file.txt" does not end in
".nc", so the claim's rule would classify it as kind "md5" and then delete
it (its checksum equals the record's md5 checksum) — but the code leaves it
unclassified and `remove_staged_file` neither deletes it nor records it: the
file is silently skipped (empty error list, no action at all). -/
theorem other_suffix_skipped_counterexample :
    pyEndsWith "file.txt" ".nc" = false ∧
    classify "file.txt" = none ∧
    remove_staged_file (ChecksumDict.mk (some "c") (some "c")) "p" "d"
      [FileEntry.mk "file.txt" "c"] noS3Fail = Except.ok ([], []) := by
  refine ⟨by decide, by decide, rfl⟩

/-- Claim C5 (amended): `remove_staged_file` classifies a file ending in
".nc" as kind netcdf and a file ending in ".md5" as kind md5; every file so
classified is either deleted from the bucket (checksum match) or recorded as
a mismatch; a file with any other suffix is skipped without action. -/
theorem classified_files_deleted_or_reported (cd : ChecksumDict) (p ds : String)
    (files : List FileEntry) (s3f : String → Bool)
    (hs : ∀ k, s3f k = false)
    (hk : ∀ f ∈ files, kindKeyPresent cd f = true) :
    (∀ name, pyEndsWith name ".nc" = true → classify name = some FileType.netcdf) ∧
    (∀ name, pyEndsWith name ".nc" = false → pyEndsWith name ".md5" = true →
      classify name = some FileType.md5) ∧
    (∀ name, pyEndsWith name ".nc" = false → pyEndsWith name ".md5" = false →
      classify name = none) ∧
    remove_staged_file cd p ds files s3f =
      Except.ok (mismatchNames cd files, stagedDeletes cd p ds files) ∧
    (∀ f ∈ files, matchesDict cd f = true →
      Action.s3Delete (p ++ "-l2p-granules") (ds ++ "/" ++ f.name)
        ∈ stagedDeletes cd p ds files) ∧
    (∀ f ∈ files, mismatchesDict cd f = true → f.name ∈ mismatchNames cd files) ∧
    (∀ n ∈ mismatchNames cd files, ∃ f ∈ files, f.name = n ∧ mismatchesDict cd f = true) := by
  refine ⟨?_, ?_, ?_, rsf_eq cd p ds s3f hs files hk,
    stagedDeletes_mem cd p ds files, mismatchNames_mem cd files,
    mismatchNames_sub cd files⟩
  · intro name h; simp [classify, h]
  · intro name h1 h2; simp [classify, h1, h2]
  · intro name h1 h2; simp [classify, h1, h2]

/-- Witness for the amended C5: one matching `.nc` file, one mismatching
`.md5` file and one `.txt` file; the loop returns the single mismatch name
and the single delete action. -/
theorem classified_files_deleted_or_reported_witness :
    (∀ f ∈ [FileEntry.mk "a.nc" "abc", FileEntry.mk "b.md5" "xxx",
            FileEntry.mk "c.txt" "q"],
      kindKeyPresent (ChecksumDict.mk (some "abc") (some "ddd")) f = true) ∧
    mismatchNames (ChecksumDict.mk (some "abc") (some "ddd"))
      [FileEntry.mk "a.nc" "abc", FileEntry.mk "b.md5" "xxx",
       FileEntry.mk "c.txt" "q"] = ["b.md5"] ∧
    stagedDeletes (ChecksumDict.mk (some "abc") (some "ddd")) "p" "d"
      [FileEntry.mk "a.nc" "abc", FileEntry.mk "b.md5" "xxx",
       FileEntry.mk "c.txt" "q"] =
      [Action.s3Delete "p-l2p-granules" "d/a.nc",
       Action.logInfo "d/a.nc deleted from L2P granules staging bucket."] ∧
    remove_staged_file (ChecksumDict.mk (some "abc") (some "ddd")) "p" "d"
      [FileEntry.mk "a.nc" "abc", FileEntry.mk "b.md5" "xxx",
       FileEntry.mk "c.txt" "q"] noS3Fail =
      Except.ok (mismatchNames (ChecksumDict.mk (some "abc") (some "ddd"))
        [FileEntry.mk "a.nc" "abc", FileEntry.mk "b.md5" "xxx",
         FileEntry.mk "c.txt" "q"],
        stagedDeletes (ChecksumDict.mk (some "abc") (some "ddd")) "p" "d"
          [FileEntry.mk "a.nc" "abc", FileEntry.mk "b.md5" "xxx",
           FileEntry.mk "c.txt" "q"]) :=
  ⟨by decide, by decide, by decide,
   (classified_files_deleted_or_reported (ChecksumDict.mk (some "abc") (some "ddd"))
      "p" "d"
      [FileEntry.mk "a.nc" "abc", FileEntry.mk "b.md5" "xxx", FileEntry.mk "c.txt" "q"]
      noS3Fail (fun k => rfl) (by decide)).2.2.2.1⟩

/-- Counterexample to C7: "MODIS_NPP" contains the substring "_NPP", but the
code's normalization (guarded by containing "VIIRS") leaves it unchanged
instead of stripping "_NPP" to the base family name "MODIS". -/
theorem npp_without_viirs_counterexample :
    pyContains "MODIS_NPP" "_NPP" = true ∧
    normalize_dataset "MODIS_NPP" = "MODIS_NPP" ∧
    ("MODIS_NPP" : String) ≠ "MODIS" := by
  refine ⟨by decide, by decide, by decide⟩

/-- Claim C7 (amended): the "_NPP" stripping happens exactly for dataset
codes containing "VIIRS": a code without "VIIRS" is left unchanged (even if
it contains "_NPP"), and "VIIRS_NPP" is mapped to "VIIRS". -/
theorem npp_strip_only_for_viirs (d : String) :
    (pyContains d "VIIRS" = false → normalize_dataset d = d) ∧
    normalize_dataset "VIIRS_NPP" = "VIIRS" := by
  constructor
  · intro h
    simp [normalize_dataset, h]
  · decide

/-- Witness for the amended C7 at "MODIS_NPP" (not stripped) and at
"VIIRS_NPP" (stripped). -/
theorem npp_strip_only_for_viirs_witness :
    pyContains "MODIS_NPP" "VIIRS" = false ∧
    normalize_dataset "MODIS_NPP" = "MODIS_NPP" ∧
    normalize_dataset "VIIRS_NPP" = "VIIRS" :=
  ⟨by decide, (npp_strip_only_for_viirs "MODIS_NPP").1 (by decide),
   (npp_strip_only_for_viirs "MODIS_NPP").2⟩

/-- Claim C10: when some produced file is classified (ends in ".nc" or
".md5") but the checksum dict has no entry for its kind, the unguarded
lookup raises a `KeyError`; since the handler catches only `ClientError`,
the exception escapes the invocation: the handler neither exits nor
publishes a failure notification. -/
theorem keyerror_escapes_handler (ident coll tr ec em tok : String)
    (files cmrFiles : List FileEntry) (s3f : String → Bool) (efs : Efs)
    (sns : SnsWorld) (cd : ChecksumDict) (hits : Nat) (d0 ds : String)
    (hhits : 0 < hits)
    (hcd : buildChecksumDict cmrFiles (ChecksumDict.mk none none) = cd)
    (hne : cd.nonempty = true)
    (h4 : (pySplit ident '-')[4]? = some d0)
    (hS3 : S3_dict (normalize_dataset d0) = some ds)
    (hs : ∀ k, s3f k = false)
    (hbad : ∃ f ∈ files, kindKeyPresent cd f = false) :
    remove_staged_file cd tr ds files s3f = Except.error PyExn.keyError ∧
    (cnm_handler (Event.mk ident coll tr "SUCCESS" ec em files)
        (World.mk (CmrResponse.body hits cmrFiles) (some tok) s3f efs sns)).2
      = Ctl.raised PyExn.keyError ∧
    publishActions (cnm_handler (Event.mk ident coll tr "SUCCESS" ec em files)
        (World.mk (CmrResponse.body hits cmrFiles) (some tok) s3f efs sns)).1 = [] :=
  success_keyerror_run ident coll tr ec em tok files cmrFiles s3f efs sns
    cd hits d0 ds hhits hcd hne h4 hS3 hs hbad

/-- Witness for C10: the catalog record listed no `.md5` file, so the dict
has no "md5" key, and the produced `.md5` file's lookup raises the escaping
`KeyError`. -/
theorem keyerror_escapes_handler_witness :
    (∃ f ∈ [FileEntry.mk "20230115103045-JPL-L2P-SST-MODIS_A-v02.0-fv01.0.nc" "abc",
            FileEntry.mk "20230115103045-JPL-L2P-SST-MODIS_A-v02.0-fv01.0.md5" "ddd"],
      kindKeyPresent (ChecksumDict.mk (some "abc") none) f = false) ∧
    remove_staged_file (ChecksumDict.mk (some "abc") none) "tr" "aqua"
      [FileEntry.mk "20230115103045-JPL-L2P-SST-MODIS_A-v02.0-fv01.0.nc" "abc",
       FileEntry.mk "20230115103045-JPL-L2P-SST-MODIS_A-v02.0-fv01.0.md5" "ddd"]
      noS3Fail = Except.error PyExn.keyError ∧
    (cnm_handler
      (Event.mk "20230115103045-JPL-L2P-SST-MODIS_A-v02.0-fv01.0" "C" "tr" "SUCCESS" "" ""
        [FileEntry.mk "20230115103045-JPL-L2P-SST-MODIS_A-v02.0-fv01.0.nc" "abc",
         FileEntry.mk "20230115103045-JPL-L2P-SST-MODIS_A-v02.0-fv01.0.md5" "ddd"])
      (World.mk
        (CmrResponse.body 1
          [FileEntry.mk "20230115103045-JPL-L2P-SST-MODIS_A-v02.0-fv01.0.nc" "abc"])
        (some "tok") noS3Fail (Efs.mk [] [])
        (SnsWorld.mk ["x-batch-job-failure-y"] true true))).2
      = Ctl.raised PyExn.keyError :=
  ⟨by decide,
   (keyerror_escapes_handler "20230115103045-JPL-L2P-SST-MODIS_A-v02.0-fv01.0" "C" "tr"
      "" "" "tok"
      [FileEntry.mk "20230115103045-JPL-L2P-SST-MODIS_A-v02.0-fv01.0.nc" "abc",
       FileEntry.mk "20230115103045-JPL-L2P-SST-MODIS_A-v02.0-fv01.0.md5" "ddd"]
      [FileEntry.mk "20230115103045-JPL-L2P-SST-MODIS_A-v02.0-fv01.0.nc" "abc"]
      noS3Fail (Efs.mk [] []) (SnsWorld.mk ["x-batch-job-failure-y"] true true)
      (ChecksumDict.mk (some "abc") none) 1 "MODIS_A" "aqua"
      (by decide) (by decide) (by decide) (by decide) (by decide)
      (fun k => rfl) (by decide)).1,
   (keyerror_escapes_handler "20230115103045-JPL-L2P-SST-MODIS_A-v02.0-fv01.0" "C" "tr"
      "" "" "tok"
      [FileEntry.mk "20230115103045-JPL-L2P-SST-MODIS_A-v02.0-fv01.0.nc" "abc",
       FileEntry.mk "20230115103045-JPL-L2P-SST-MODIS_A-v02.0-fv01.0.md5" "ddd"]
      [FileEntry.mk "20230115103045-JPL-L2P-SST-MODIS_A-v02.0-fv01.0.nc" "abc"]
      noS3Fail (Efs.mk [] []) (SnsWorld.mk ["x-batch-job-failure-y"] true true)
      (ChecksumDict.mk (some "abc") none) 1 "MODIS_A" "aqua"
      (by decide) (by decide) (by decide) (by decide) (by decide)
      (fun k => rfl) (by decide)).2.1⟩

end CNM
